import Mathlib

/-!
Verification of the display server core (`srv/hid/display/display.c`).

The development shallowly embeds the display data model and the operations
of `display.c`: the z-ordered window list and its insertion algorithm
(`ds_display_enlist_window`, `ds_display_add_window`,
`ds_display_remove_window`, `ds_display_window_to_top`), the attach/detach
operations for clients, WM clients, seats, display devices and cursors,
the compositing pipeline (`ds_display_paint`, `ds_display_paint_bg`,
`ds_display_update`, `ds_display_invalidate_cb`) with its dirty-rectangle
tracking, and seat lookup (`ds_display_seat_by_idev`).

External collaborators (graphics contexts, bitmap rendering, window/seat
paint delegates, WM client notification sinks) are modelled as oracles:
records of call results supplied as explicit parameters.  C error codes
are modelled by the inductive `Errno`; fallible external constructors
return `Except Errno α`.
-/

namespace DisplaySrv

/-- C error codes (`errno_t`) used by `display.c`. -/
inductive Errno where
  | EOK
  | ENOMEM
  | EIO
  | EINVAL
deriving DecidableEq, Repr

/-- 2D coordinate (`gfx_coord2_t`), integer coordinates. -/
structure GfxCoord2 where
  x : Int
  y : Int
deriving DecidableEq, Repr

/-- Rectangle (`gfx_rect_t`) given by two corner points. -/
structure GfxRect where
  p0 : GfxCoord2
  p1 : GfxCoord2
deriving DecidableEq, Repr

/-- The all-zero rectangle: what `calloc` leaves in `disp->rect` and what
the code stores into `dirty_rect` on reset (p0 = p1 = (0,0)). -/
def gfx_rect_zero : GfxRect := ⟨⟨0, 0⟩, ⟨0, 0⟩⟩

/-- Modelled from the spec: `gfx_rect_is_empty` is a rectangle helper of
the graphics capability (its implementation is not part of the core
source).  A rectangle is empty when it contains no pixels, i.e. when it
is degenerate in either axis; the reset rectangle p0 = p1 = (0,0) is
empty. -/
def gfx_rect_is_empty (r : GfxRect) : Bool :=
  r.p1.x ≤ r.p0.x || r.p1.y ≤ r.p0.y

/-- Modelled from the spec: `gfx_rect_envelope` is a rectangle helper of
the graphics capability (not part of the core source).  It returns the
minimal bounding box of two rectangles, an empty rectangle acting as the
identity. -/
def gfx_rect_envelope (a b : GfxRect) : GfxRect :=
  if gfx_rect_is_empty a then b
  else if gfx_rect_is_empty b then a
  else ⟨⟨min a.p0.x b.p0.x, min a.p0.y b.p0.y⟩,
        ⟨max a.p1.x b.p1.x, max a.p1.y b.p1.y⟩⟩

/-- Modelled from the spec: `gfx_rect_clip` is a rectangle helper of the
graphics capability (not part of the core source).  It intersects two
rectangles componentwise. -/
def gfx_rect_clip (r clip : GfxRect) : GfxRect :=
  ⟨⟨max r.p0.x clip.p0.x, max r.p0.y clip.p0.y⟩,
   ⟨min r.p1.x clip.p1.x, min r.p1.y clip.p1.y⟩⟩

/-- A proper rectangle: positive extent in both axes (sorted and
nonempty). -/
def rectProper (r : GfxRect) : Bool :=
  r.p0.x < r.p1.x && r.p0.y < r.p1.y

/-- Window flags (`display_wnd_flags_t`): the core only inspects
`wndf_topmost`; the other flags are carried along untouched. -/
structure WndFlags where
  topmost : Bool
  popup : Bool
  system : Bool
deriving DecidableEq, Repr

/-- Display window (`ds_window_t`): the fields `display.c` reads.  List
linkage (`ldwindows`) is represented by the window's position in the
display's window list. -/
structure Window where
  id : Nat
  flags : WndFlags
deriving DecidableEq, Repr

/-- Insert `wnd` before the first non-topmost entry of the list, or append
it at the end when every entry is topmost: the scan loop of
`ds_display_enlist_window` for a non-topmost window. -/
def insertBeforeFirstNonTopmost : List Window → Window → List Window
  | [], wnd => [wnd]
  | w :: ws, wnd =>
      if w.flags.topmost then w :: insertBeforeFirstNonTopmost ws wnd
      else wnd :: w :: ws

/-- `ds_display_enlist_window`: a topmost window is prepended to the whole
list; a non-topmost window is inserted before the first non-topmost entry
found scanning from the front, or appended when there is none.  (The
source's asserts — `wnd->display == display`, `!link_used` — are
preconditions of the callers modelled there.) -/
def ds_display_enlist_window (windows : List Window) (wnd : Window) :
    List Window :=
  if wnd.flags.topmost then wnd :: windows
  else insertBeforeFirstNonTopmost windows wnd

/-- `ds_display_add_window` at the window-list level: attach and enlist.
(WM-client notifications do not affect the window list.) -/
def ds_display_add_window (windows : List Window) (wnd : Window) :
    List Window :=
  ds_display_enlist_window windows wnd

/-- Remove the (unique) window with the given id: `list_remove` of that
window's node. -/
def eraseById : List Window → Nat → List Window
  | [], _ => []
  | w :: ws, i => if w.id = i then ws else w :: eraseById ws i

/-- `ds_display_remove_window` at the window-list level: unlink the
window's node. -/
def ds_display_remove_window (windows : List Window) (wnd : Window) :
    List Window :=
  eraseById windows wnd.id

/-- `ds_display_window_to_top`: unlink the window, then re-run
`ds_display_enlist_window`. -/
def ds_display_window_to_top (windows : List Window) (wnd : Window) :
    List Window :=
  ds_display_enlist_window (eraseById windows wnd.id) wnd

/-- Does the list contain a window with this id? -/
def containsId (l : List Window) (i : Nat) : Bool :=
  l.any (fun w => w.id = i)

/-- The three window-stack operations a client can drive. -/
inductive WndOp where
  | add (w : Window)
  | remove (w : Window)
  | toTop (w : Window)
deriving DecidableEq, Repr

/-- One window-stack operation.  An operation whose source assertion would
fail (double add, to-top of an unlisted window) aborts the process in C;
since an aborted run has no further observable points, it is modelled as
leaving the list unchanged. -/
def applyWndOp (l : List Window) : WndOp → List Window
  | .add w => if containsId l w.id then l else ds_display_add_window l w
  | .remove w => ds_display_remove_window l w
  | .toTop w =>
      if containsId l w.id then ds_display_window_to_top l w else l

/-- The window list reached from the empty display by a sequence of
operations. -/
def wndOpsRun (ops : List WndOp) : List Window :=
  ops.foldl applyWndOp []

/-- Every window in the list is non-topmost. -/
def allNonTopmost (l : List Window) : Bool :=
  l.all (fun w => !w.flags.topmost)

/-- The z-order invariant as a scan: a run of topmost windows followed by
a run of non-topmost windows. -/
def zOrdered : List Window → Bool
  | [] => true
  | w :: ws => if w.flags.topmost then zOrdered ws else allNonTopmost ws

theorem allNonTopmost_zOrdered {l : List Window}
    (h : allNonTopmost l = true) : zOrdered l = true := by
  cases l with
  | nil => rfl
  | cons w ws =>
      simp only [allNonTopmost, List.all_cons, Bool.and_eq_true] at h
      simp only [zOrdered]
      rw [if_neg]
      · exact h.2
      · simp only [Bool.not_eq_true'] at h
        simp [h.1]

theorem allNonTopmost_erase {l : List Window} {i : Nat}
    (h : allNonTopmost l = true) : allNonTopmost (eraseById l i) = true := by
  induction l with
  | nil => rfl
  | cons w ws ih =>
      simp only [allNonTopmost, List.all_cons, Bool.and_eq_true] at h
      simp only [eraseById]
      by_cases hw : w.id = i
      · rw [if_pos hw]; exact h.2
      · rw [if_neg hw]
        simp only [allNonTopmost, List.all_cons, Bool.and_eq_true]
        exact ⟨h.1, ih h.2⟩

theorem zOrdered_erase {l : List Window} {i : Nat}
    (h : zOrdered l = true) : zOrdered (eraseById l i) = true := by
  induction l with
  | nil => rfl
  | cons w ws ih =>
      simp only [zOrdered] at h
      simp only [eraseById]
      by_cases ht : w.flags.topmost
      · rw [if_pos ht] at h
        by_cases hw : w.id = i
        · rw [if_pos hw]; exact h
        · rw [if_neg hw]
          simp only [zOrdered, if_pos ht]
          exact ih h
      · rw [if_neg ht] at h
        by_cases hw : w.id = i
        · rw [if_pos hw]; exact allNonTopmost_zOrdered h
        · rw [if_neg hw]
          simp only [zOrdered, if_neg ht]
          exact allNonTopmost_erase h

theorem zOrdered_insertBefore {l : List Window} {w : Window}
    (hw : w.flags.topmost = false) (h : zOrdered l = true) :
    zOrdered (insertBeforeFirstNonTopmost l w) = true := by
  induction l with
  | nil =>
      simp [insertBeforeFirstNonTopmost, zOrdered, allNonTopmost, hw]
  | cons v vs ih =>
      simp only [zOrdered] at h
      simp only [insertBeforeFirstNonTopmost]
      by_cases ht : v.flags.topmost
      · rw [if_pos ht] at h
        rw [if_pos ht]
        simp only [zOrdered, if_pos ht]
        exact ih h
      · rw [if_neg ht] at h
        rw [if_neg ht]
        simp only [zOrdered, if_neg (by simp [hw] : ¬ w.flags.topmost = true)]
        simp only [allNonTopmost, List.all_cons, Bool.and_eq_true]
        refine ⟨by simp [ht], h⟩

theorem zOrdered_enlist {l : List Window} {w : Window}
    (h : zOrdered l = true) :
    zOrdered (ds_display_enlist_window l w) = true := by
  by_cases ht : w.flags.topmost
  · simp only [ds_display_enlist_window, if_pos ht, zOrdered]
    exact h
  · simp only [ds_display_enlist_window, if_neg ht]
    exact zOrdered_insertBefore (by simpa using ht) h

theorem zOrdered_applyWndOp {l : List Window} (op : WndOp)
    (h : zOrdered l = true) : zOrdered (applyWndOp l op) = true := by
  cases op with
  | add w =>
      simp only [applyWndOp]
      by_cases hc : containsId l w.id
      · rw [if_pos hc]; exact h
      · rw [if_neg hc]
        exact zOrdered_enlist h
  | remove w => exact zOrdered_erase h
  | toTop w =>
      simp only [applyWndOp]
      by_cases hc : containsId l w.id
      · rw [if_pos hc]
        exact zOrdered_enlist (zOrdered_erase h)
      · rw [if_neg hc]; exact h

theorem zOrdered_foldl (ops : List WndOp) {l : List Window}
    (h : zOrdered l = true) : zOrdered (ops.foldl applyWndOp l) = true := by
  induction ops generalizing l with
  | nil => exact h
  | cons op rest ih => exact ih (zOrdered_applyWndOp op h)

theorem zOrdered_get {l : List Window} (h : zOrdered l = true)
    (i j : Fin l.length) (hij : (i : Nat) < (j : Nat))
    (hj : (l.get j).flags.topmost = true) :
    (l.get i).flags.topmost = true := by
  induction l with
  | nil => exact absurd i.isLt (by simp)
  | cons w ws ih =>
      simp only [zOrdered] at h
      by_cases ht : w.flags.topmost
      · rw [if_pos ht] at h
        cases i using Fin.cases with
        | zero => exact ht
        | succ i0 =>
            cases j using Fin.cases with
            | zero => exact absurd hij (by simp)
            | succ j0 =>
                exact ih h i0 j0 (by simpa using hij) (by simpa using hj)
      · rw [if_neg ht] at h
        exfalso
        have hmem : (w :: ws).get j ∈ w :: ws := List.get_mem _ j.1 j.2
        rcases List.mem_cons.mp hmem with hcase | hcase
        · rw [hcase] at hj
          exact ht hj
        · have hall := List.all_eq_true.mp h _ hcase
          simp only [Bool.not_eq_true'] at hall
          rw [hj] at hall
          exact absurd hall (by simp)

theorem insertBefore_eq_takeWhile_dropWhile (l : List Window) (w : Window) :
    insertBeforeFirstNonTopmost l w =
      l.takeWhile (fun v => v.flags.topmost) ++
        w :: l.dropWhile (fun v => v.flags.topmost) := by
  induction l with
  | nil => rfl
  | cons v vs ih =>
      simp only [insertBeforeFirstNonTopmost, List.takeWhile_cons,
        List.dropWhile_cons]
      by_cases ht : v.flags.topmost
      · simp [ht, ih]
      · simp [ht]

theorem eraseById_enlist {l : List Window} {w : Window}
    (h : ∀ v ∈ l, v.id ≠ w.id) :
    eraseById (ds_display_enlist_window l w) w.id = l := by
  by_cases ht : w.flags.topmost
  · simp [ds_display_enlist_window, if_pos ht, eraseById]
  · simp only [ds_display_enlist_window, if_neg ht]
    induction l with
    | nil => simp [insertBeforeFirstNonTopmost, eraseById]
    | cons v vs ih =>
        simp only [insertBeforeFirstNonTopmost]
        by_cases hvt : v.flags.topmost
        · rw [if_pos hvt]
          simp only [eraseById, if_neg (h v (by simp))]
          rw [ih (fun u hu => h u (by simp [hu]))]
        · rw [if_neg hvt]
          simp [eraseById]

theorem eraseById_no_id {l : List Window} {i : Nat}
    (hnd : (l.map Window.id).Nodup) :
    ∀ v ∈ eraseById l i, v.id ≠ i := by
  induction l with
  | nil => intro v hv; cases hv
  | cons u us ih =>
      simp only [List.map_cons, List.nodup_cons] at hnd
      by_cases hu : u.id = i
      · simp only [eraseById, if_pos hu]
        intro v hv hvi
        apply hnd.1
        rw [hu, ← hvi]
        exact List.mem_map_of_mem Window.id hv
      · simp only [eraseById, if_neg hu]
        intro v hv
        rcases List.mem_cons.mp hv with h1 | h1
        · rw [h1]; exact hu
        · exact ih hnd.2 v h1

theorem perm_cons_eraseById {l : List Window} {w : Window}
    (hnd : (l.map Window.id).Nodup) (hw : w ∈ l) :
    l.Perm (w :: eraseById l w.id) := by
  induction l with
  | nil => cases hw
  | cons v vs ih =>
      simp only [List.map_cons, List.nodup_cons] at hnd
      rcases List.mem_cons.mp hw with hv | hv
      · rw [hv]
        simp [eraseById]
      · by_cases hid : v.id = w.id
        · exfalso
          apply hnd.1
          rw [hid]
          exact List.mem_map_of_mem Window.id hv
        · simp only [eraseById, if_neg hid]
          exact ((ih hnd.2 hv).cons v).trans (List.Perm.swap w v _)

theorem mem_enlist (l : List Window) (w : Window) :
    w ∈ ds_display_enlist_window l w := by
  by_cases ht : w.flags.topmost
  · simp [ds_display_enlist_window, if_pos ht]
  · simp [ds_display_enlist_window, if_neg ht,
      insertBefore_eq_takeWhile_dropWhile]

theorem enlist_perm_cons (l : List Window) (w : Window) :
    (ds_display_enlist_window l w).Perm (w :: l) := by
  by_cases ht : w.flags.topmost
  · simp [ds_display_enlist_window, if_pos ht]
  · simp only [ds_display_enlist_window, if_neg ht,
      insertBefore_eq_takeWhile_dropWhile]
    refine List.Perm.trans List.perm_middle ?_
    rw [List.takeWhile_append_dropWhile]

/-- Non-topmost window used in the concrete scenarios (window A). -/
def wndA : Window := ⟨1, ⟨false, false, false⟩⟩

/-- Topmost window used in the concrete scenarios (window B). -/
def wndB : Window := ⟨2, ⟨true, false, false⟩⟩

/-- Non-topmost window used in the concrete scenarios (window C). -/
def wndC : Window := ⟨3, ⟨false, false, false⟩⟩

/-- C1: for every sequence of add/remove/to-top operations starting from a
display with no windows, at every observable point between operations
every topmost window precedes every non-topmost window in front-to-back
iteration order of the display's window list. -/
theorem zorder_topmost_precede (ops : List WndOp)
    (i j : Fin (wndOpsRun ops).length) (hij : (i : Nat) < (j : Nat))
    (hj : ((wndOpsRun ops).get j).flags.topmost = true) :
    ((wndOpsRun ops).get i).flags.topmost = true := by
  have h0 : zOrdered ([] : List Window) = true := rfl
  exact zOrdered_get (zOrdered_foldl ops h0) i j hij hj

/-- Witness for C1: after adding two topmost windows the front entry is
topmost. -/
theorem zorder_topmost_precede_witness :
    ((wndOpsRun [WndOp.add wndB, WndOp.add ⟨4, ⟨true, false, false⟩⟩]).get
      ⟨0, by decide⟩).flags.topmost = true :=
  zorder_topmost_precede [WndOp.add wndB, WndOp.add ⟨4, ⟨true, false, false⟩⟩]
    ⟨0, by decide⟩ ⟨1, by decide⟩ (by decide) (by decide)

/-- C2: `ds_display_enlist_window` prepends a topmost window to the whole
list and inserts a non-topmost window immediately before the first
non-topmost entry (appending when none exists); consequently, from an
empty display, add(A) non-topmost then add(B) topmost yields [B, A], and
a further add(C) non-topmost yields [B, C, A]. -/
theorem enlist_insertion_policy :
    (∀ (l : List Window) (w : Window),
      ds_display_enlist_window l w =
        if w.flags.topmost then w :: l
        else l.takeWhile (fun v => v.flags.topmost) ++
          w :: l.dropWhile (fun v => v.flags.topmost))
    ∧ ds_display_add_window (ds_display_add_window [] wndA) wndB =
        [wndB, wndA]
    ∧ ds_display_add_window [wndB, wndA] wndC = [wndB, wndC, wndA] := by
  refine ⟨fun l w => ?_, by decide, by decide⟩
  by_cases ht : w.flags.topmost
  · simp [ds_display_enlist_window, if_pos ht]
  · simp [ds_display_enlist_window, if_neg ht,
      insertBefore_eq_takeWhile_dropWhile]

/-- C9: for a window currently enlisted in a display whose windows have
distinct ids, `ds_display_window_to_top` is idempotent, and a single call
only re-orders the list: the resulting list is a permutation of the old
one and still contains the window with all its fields (flags, class)
unchanged. -/
theorem window_to_top_idempotent (l : List Window) (w : Window)
    (hnd : (l.map Window.id).Nodup) (hw : w ∈ l) :
    ds_display_window_to_top (ds_display_window_to_top l w) w =
      ds_display_window_to_top l w
    ∧ (ds_display_window_to_top l w).Perm l
    ∧ w ∈ ds_display_window_to_top l w := by
  refine ⟨?_, ?_, ?_⟩
  · unfold ds_display_window_to_top
    rw [eraseById_enlist (eraseById_no_id hnd)]
  · exact (enlist_perm_cons _ w).trans (perm_cons_eraseById hnd hw).symm
  · exact mem_enlist _ w

/-- Witness for C9: moving the non-topmost window A of [B, A] to top. -/
theorem window_to_top_idempotent_witness :
    (ds_display_window_to_top (ds_display_window_to_top [wndB, wndA] wndA)
        wndA = ds_display_window_to_top [wndB, wndA] wndA)
    ∧ (ds_display_window_to_top [wndB, wndA] wndA).Perm [wndB, wndA]
    ∧ wndA ∈ ds_display_window_to_top [wndB, wndA] wndA :=
  window_to_top_idempotent [wndB, wndA] wndA (by decide) (by decide)

/-- A bitmap created through the graphics capability (`gfx_bitmap_t`),
identified abstractly. -/
structure GfxBitmap where
  bid : Nat
deriving DecidableEq, Repr

/-- A memory-backed GC (`mem_gc_t`) wrapping the backbuffer. -/
structure MemGC where
  mid : Nat
deriving DecidableEq, Repr

/-- The fan-out (cloning) GC (`ds_clonegc_t`). -/
structure CloneGC where
  cid : Nat
deriving DecidableEq, Repr

/-- A graphics context (`gfx_context_t`), tagged by where it came from. -/
inductive GfxGC where
  | memCtx (m : MemGC)
  | cloneCtx (c : CloneGC)
deriving DecidableEq, Repr

/-- Modelled from the spec: `mem_gc_get_ctx` (memgfx library, not part of
the core source) returns the drawing context of the memory-backed
backbuffer GC. -/
def mem_gc_get_ctx (m : MemGC) : GfxGC := GfxGC.memCtx m

/-- Modelled from the spec: `ds_clonegc_get_ctx` (clonegc.c, not part of
the core source) returns the drawing context of the fan-out GC. -/
def ds_clonegc_get_ctx (c : CloneGC) : GfxGC := GfxGC.cloneCtx c

/-- Drawing client (`ds_client_t`): back-reference to its display and the
`lclients` link state. -/
structure DsClient where
  id : Nat
  display : Option Nat
  link_used : Bool
deriving DecidableEq, Repr

/-- Window-manager client (`ds_wmclient_t`). -/
structure DsWmclient where
  id : Nat
  display : Option Nat
  link_used : Bool
deriving DecidableEq, Repr

/-- Seat (`ds_seat_t`). -/
structure DsSeat where
  id : Nat
  display : Option Nat
  link_used : Bool
deriving DecidableEq, Repr

/-- Display device (`ds_ddev_t`): one physical output with its reported
geometry (`ddev->info.rect`). -/
structure DsDdev where
  id : Nat
  display : Option Nat
  link_used : Bool
  rect : GfxRect
deriving DecidableEq, Repr

/-- Cursor (`ds_cursor_t`). -/
structure DsCursor where
  id : Nat
  display : Option Nat
  link_used : Bool
deriving DecidableEq, Repr

/-- Display flags (`ds_display_flags_t`): the core only inspects
`df_disp_double_buf`. -/
structure DsDisplayFlags where
  double_buf : Bool
deriving DecidableEq, Repr

/-- The display (`ds_display_t`): the aggregation root of `display.c`. -/
structure DsDisplay where
  id : Nat
  rect : GfxRect
  flags : DsDisplayFlags
  backbuf : Option GfxBitmap
  bbgc : Option MemGC
  fbgc : Option CloneGC
  dirty_rect : GfxRect
  next_wnd_id : Nat
  clients : List DsClient
  wmclients : List DsWmclient
  seats : List DsSeat
  ddevs : List DsDdev
  cursors : List DsCursor
  windows : List Window
deriving DecidableEq, Repr

/-- `ds_display_create`, successful path: `calloc` zeroes every field and
the collections start empty, `next_wnd_id` starts at 1, the flags are
stored.  The background color and the fixed cursor set are created
through external collaborators (`gfx_color_new_rgb_i16`,
`ds_cursor_create` in cursor.c) and carry no state any property here
depends on. -/
def ds_display_create (flags : DsDisplayFlags) (did : Nat) : DsDisplay :=
  { id := did, rect := gfx_rect_zero, flags := flags, backbuf := none,
    bbgc := none, fbgc := none, dirty_rect := gfx_rect_zero,
    next_wnd_id := 1, clients := [], wmclients := [], seats := [],
    ddevs := [], cursors := [], windows := [] }

/-- `ds_display_get_unbuf_gc`: NULL when no fan-out GC exists ("in case of
unit tests"), else the fan-out GC's context. -/
def ds_display_get_unbuf_gc (disp : DsDisplay) : Option GfxGC :=
  match disp.fbgc with
  | none => none
  | some f => some (ds_clonegc_get_ctx f)

/-- `ds_display_get_gc`: the backbuffer's memory context when the
double-buffered flag is set, else the unbuffered (fan-out) context.
`mem_gc_get_ctx` is a plain field accessor, so calling it with
`display->bbgc == NULL` (a double-buffered display before the backbuffer
is allocated) is a null-pointer dereference: the outer `none` models
that fault.  `some none` models a legal NULL context pointer (the
`fbgc == NULL` path of `ds_display_get_unbuf_gc`), and `some (some g)` a
valid context. -/
def ds_display_get_gc (disp : DsDisplay) : Option (Option GfxGC) :=
  if disp.flags.double_buf then
    disp.bbgc.map (fun m => some (mem_gc_get_ctx m))
  else some (ds_display_get_unbuf_gc disp)

/-- Remove the first list entry with the given id: `list_remove` of that
entry's node. -/
def eraseByIdG {α : Type} (f : α → Nat) : List α → Nat → List α
  | [], _ => []
  | x :: xs, i => if f x = i then xs else x :: eraseByIdG f xs i

/-- `ds_display_add_client`: asserts the client is unattached
(`client->display == NULL`, `!link_used(&client->lclients)`), then sets
the back-reference and appends to the client list.  Assertion failure
aborts the process; modelled as `none`. -/
def ds_display_add_client (disp : DsDisplay) (client : DsClient) :
    Option (DsDisplay × DsClient) :=
  if client.display = none ∧ client.link_used = false then
    let c1 := { client with display := some disp.id, link_used := true }
    some ({ disp with clients := disp.clients ++ [c1] }, c1)
  else none

/-- `ds_display_remove_client`: unlink from the client list and clear the
back-reference.  Modelled from the spec: the detach assertion — the
entity must currently be attached to this display — lives in the list
primitive `list_remove` (`<adt/list.h>`, not part of the core source);
per the spec a violation is a fatal precondition error, modelled as
`none`.  The display owning the list is `client->display`, passed
explicitly. -/
def ds_display_remove_client (client : DsClient) (disp : DsDisplay) :
    Option (DsDisplay × DsClient) :=
  if client.link_used then
    some ({ disp with clients := eraseByIdG DsClient.id disp.clients client.id },
      { client with display := none, link_used := false })
  else none

/-- `ds_display_add_wmclient`: asserts unattached, then appends. -/
def ds_display_add_wmclient (disp : DsDisplay) (wmclient : DsWmclient) :
    Option (DsDisplay × DsWmclient) :=
  if wmclient.display = none ∧ wmclient.link_used = false then
    let w1 := { wmclient with display := some disp.id, link_used := true }
    some ({ disp with wmclients := disp.wmclients ++ [w1] }, w1)
  else none

/-- `ds_display_remove_wmclient`: unlink and clear the back-reference;
detach assertion modelled from the spec as for clients. -/
def ds_display_remove_wmclient (wmclient : DsWmclient) (disp : DsDisplay) :
    Option (DsDisplay × DsWmclient) :=
  if wmclient.link_used then
    some ({ disp with
      wmclients := eraseByIdG DsWmclient.id disp.wmclients wmclient.id },
      { wmclient with display := none, link_used := false })
  else none

/-- `ds_display_add_seat`: asserts unattached, then appends. -/
def ds_display_add_seat (disp : DsDisplay) (seat : DsSeat) :
    Option (DsDisplay × DsSeat) :=
  if seat.display = none ∧ seat.link_used = false then
    let s1 := { seat with display := some disp.id, link_used := true }
    some ({ disp with seats := disp.seats ++ [s1] }, s1)
  else none

/-- `ds_display_remove_seat`: unlink and clear the back-reference; detach
assertion modelled from the spec as for clients. -/
def ds_display_remove_seat (seat : DsSeat) (disp : DsDisplay) :
    Option (DsDisplay × DsSeat) :=
  if seat.link_used then
    some ({ disp with seats := eraseByIdG DsSeat.id disp.seats seat.id },
      { seat with display := none, link_used := false })
  else none

/-- `ds_display_add_cursor`: asserts unattached, then prepends to the
cursor list (`list_prepend`). -/
def ds_display_add_cursor (disp : DsDisplay) (cursor : DsCursor) :
    Option (DsDisplay × DsCursor) :=
  if cursor.display = none ∧ cursor.link_used = false then
    let c1 := { cursor with display := some disp.id, link_used := true }
    some ({ disp with cursors := c1 :: disp.cursors }, c1)
  else none

/-- `ds_display_remove_cursor`: unlink and clear the back-reference;
detach assertion modelled from the spec as for clients. -/
def ds_display_remove_cursor (cursor : DsCursor) (disp : DsDisplay) :
    Option (DsDisplay × DsCursor) :=
  if cursor.link_used then
    some ({ disp with cursors := eraseByIdG DsCursor.id disp.cursors cursor.id },
      { cursor with display := none, link_used := false })
  else none

/-- Result of a fallible external constructor call: success with the
created object, or failure with the returned error code. -/
inductive CallResult (α : Type) where
  | ok (val : α)
  | error (rc : Errno)
deriving DecidableEq, Repr

/-- Results of the external calls `ds_display_add_ddev` and
`ds_display_alloc_backbuf` make: `ds_clonegc_create`,
`gfx_bitmap_create`, `gfx_bitmap_get_alloc`, `mem_gc_create`,
`ds_clonegc_add_output`. -/
structure DdevEnv where
  clonegc_create : CallResult CloneGC
  bitmap_create : CallResult GfxBitmap
  bitmap_get_alloc : Errno
  mem_gc_create : CallResult MemGC
  clonegc_add_output : Errno
deriving DecidableEq, Repr

/-- `ds_display_alloc_backbuf`: nothing to do unless the double-buffered
flag is set; otherwise create the backbuffer bitmap, query its
allocation, create the memory GC with the invalidate/update callbacks,
and reset the dirty rectangle to all-zero.  On any failure the error
label destroys the backbuffer (if created) and propagates the error. -/
def ds_display_alloc_backbuf (disp : DsDisplay) (env : DdevEnv) :
    Errno × DsDisplay :=
  if disp.flags.double_buf = false then (Errno.EOK, disp)
  else
    match env.bitmap_create with
    | .error rc => (rc, { disp with backbuf := none })
    | .ok bm =>
        let d1 := { disp with backbuf := some bm }
        if env.bitmap_get_alloc ≠ Errno.EOK then
          (env.bitmap_get_alloc, { d1 with backbuf := none })
        else
          match env.mem_gc_create with
          | .error rc => (rc, { d1 with backbuf := none })
          | .ok m =>
              let d2 := { d1 with bbgc := some m }
              (Errno.EOK, { d2 with dirty_rect := gfx_rect_zero })

/-- Body of `ds_display_add_ddev` after its asserts: set the back
reference, append to the device list; for the first device (empty
screen rectangle) set the screen dimensions, create the cloning GC
(failure returns ENOMEM immediately — the source's `XXX Remove output`
comments mark the missing cleanup) and allocate the backbuffer; for a
subsequent device add its GC as an output of the cloning GC.  The error
label zeroes the screen rectangle and unlinks the device. -/
def ds_display_add_ddev_body (disp : DsDisplay) (ddev : DsDdev)
    (env : DdevEnv) : Errno × DsDisplay × DsDdev :=
  let dd1 : DsDdev := { ddev with display := some disp.id, link_used := true }
  let d1 := { disp with ddevs := disp.ddevs ++ [dd1] }
  if gfx_rect_is_empty d1.rect then
    let d2 := { d1 with rect := ddev.rect }
    match env.clonegc_create with
    | .error _ => (Errno.ENOMEM, d2, dd1)
    | .ok fb =>
        let d3 := { d2 with fbgc := some fb }
        match ds_display_alloc_backbuf d3 env with
        | (Errno.EOK, d4) => (Errno.EOK, d4, dd1)
        | (rc, d4) =>
            let d5 := { d4 with rect := gfx_rect_zero }
            let d6 := { d5 with ddevs := eraseByIdG DsDdev.id d5.ddevs ddev.id }
            (rc, d6, { dd1 with link_used := false })
  else
    if env.clonegc_add_output = Errno.EOK then (Errno.EOK, d1, dd1)
    else
      let d5 := { d1 with rect := gfx_rect_zero }
      let d6 := { d5 with ddevs := eraseByIdG DsDdev.id d5.ddevs ddev.id }
      (env.clonegc_add_output, d6, { dd1 with link_used := false })

/-- `ds_display_add_ddev`: asserts the device is unattached, then runs the
body.  Assertion failure aborts the process; modelled as `none`. -/
def ds_display_add_ddev (disp : DsDisplay) (ddev : DsDdev)
    (env : DdevEnv) : Option (Errno × DsDisplay × DsDdev) :=
  if ddev.display = none ∧ ddev.link_used = false then
    some (ds_display_add_ddev_body disp ddev env)
  else none

/-- `ds_display_remove_ddev`: unlink and clear the back-reference; detach
assertion modelled from the spec as for clients. -/
def ds_display_remove_ddev (ddev : DsDdev) (disp : DsDisplay) :
    Option (DsDisplay × DsDdev) :=
  if ddev.link_used then
    some ({ disp with ddevs := eraseByIdG DsDdev.id disp.ddevs ddev.id },
      { ddev with display := none, link_used := false })
  else none

/-- `ds_display_first_seat`: head of the seat list, NULL when empty. -/
def ds_display_first_seat (disp : DsDisplay) : Option DsSeat :=
  disp.seats.head?

/-- `ds_display_seat_by_idev`: the device id is explicitly discarded
(`(void) idev_id` under a `TODO Multi-seat` comment) and the first seat
is returned. -/
def ds_display_seat_by_idev (disp : DsDisplay) (idev_id : Nat) :
    Option DsSeat :=
  ds_display_first_seat disp

/-- Keyboard event (`kbd_event_t`): the core reads only the originating
device id. -/
structure KbdEvent where
  kbd_id : Nat
deriving DecidableEq, Repr

/-- Pointer event (`ptd_event_t`): the core reads only the originating
device id. -/
structure PtdEvent where
  pos_id : Nat
deriving DecidableEq, Repr

/-- Results of the seat dispatch delegates `ds_seat_post_kbd_event` and
`ds_seat_post_ptd_event` (seat.c, external to the core), per seat id. -/
structure SeatEnv where
  post_kbd : Nat → Errno
  post_ptd : Nat → Errno

/-- `ds_display_post_kbd_event`: resolve the seat through
`ds_display_seat_by_idev`; if none, drop the event and return EOK, else
delegate to the seat.  The second component records which seat (if any)
the event was dispatched to. -/
def ds_display_post_kbd_event (disp : DsDisplay) (event : KbdEvent)
    (env : SeatEnv) : Errno × Option DsSeat :=
  match ds_display_seat_by_idev disp event.kbd_id with
  | none => (Errno.EOK, none)
  | some seat => (env.post_kbd seat.id, some seat)

/-- `ds_display_post_ptd_event`: same shape as the keyboard path. -/
def ds_display_post_ptd_event (disp : DsDisplay) (event : PtdEvent)
    (env : SeatEnv) : Errno × Option DsSeat :=
  match ds_display_seat_by_idev disp event.pos_id with
  | none => (Errno.EOK, none)
  | some seat => (env.post_ptd seat.id, some seat)

/-- C7: `ds_display_seat_by_idev` returns the first attached seat (or none
when the display has no seats) for every input device id, and both
`ds_display_post_kbd_event` and `ds_display_post_ptd_event` dispatch to
that first seat (or drop the event when there is none). -/
theorem seat_by_idev_ignores_device (disp : DsDisplay) (idev_id : Nat) :
    ds_display_seat_by_idev disp idev_id = disp.seats.head?
    ∧ (∀ (ev : KbdEvent) (env : SeatEnv),
        (ds_display_post_kbd_event disp ev env).2 = disp.seats.head?)
    ∧ (∀ (ev : PtdEvent) (env : SeatEnv),
        (ds_display_post_ptd_event disp ev env).2 = disp.seats.head?) := by
  refine ⟨rfl, fun ev env => ?_, fun ev env => ?_⟩
  · unfold ds_display_post_kbd_event ds_display_seat_by_idev
      ds_display_first_seat
    cases disp.seats.head? <;> rfl
  · unfold ds_display_post_ptd_event ds_display_seat_by_idev
      ds_display_first_seat
    cases disp.seats.head? <;> rfl

/-- C8: every attach operation requires (by assertion) that the entity is
unattached with an unused link, and every detach operation requires that
the entity is currently attached; a violation is fatal (modelled as
`none`), not a recoverable error. -/
theorem attach_detach_assert_preconditions :
    (∀ (disp : DsDisplay) (c : DsClient),
      (ds_display_add_client disp c).isSome = true ↔
        (c.display = none ∧ c.link_used = false))
    ∧ (∀ (c : DsClient) (disp : DsDisplay),
      (ds_display_remove_client c disp).isSome = true ↔ c.link_used = true)
    ∧ (∀ (disp : DsDisplay) (w : DsWmclient),
      (ds_display_add_wmclient disp w).isSome = true ↔
        (w.display = none ∧ w.link_used = false))
    ∧ (∀ (w : DsWmclient) (disp : DsDisplay),
      (ds_display_remove_wmclient w disp).isSome = true ↔ w.link_used = true)
    ∧ (∀ (disp : DsDisplay) (s : DsSeat),
      (ds_display_add_seat disp s).isSome = true ↔
        (s.display = none ∧ s.link_used = false))
    ∧ (∀ (s : DsSeat) (disp : DsDisplay),
      (ds_display_remove_seat s disp).isSome = true ↔ s.link_used = true)
    ∧ (∀ (disp : DsDisplay) (dd : DsDdev) (env : DdevEnv),
      (ds_display_add_ddev disp dd env).isSome = true ↔
        (dd.display = none ∧ dd.link_used = false))
    ∧ (∀ (dd : DsDdev) (disp : DsDisplay),
      (ds_display_remove_ddev dd disp).isSome = true ↔ dd.link_used = true)
    ∧ (∀ (disp : DsDisplay) (cu : DsCursor),
      (ds_display_add_cursor disp cu).isSome = true ↔
        (cu.display = none ∧ cu.link_used = false))
    ∧ (∀ (cu : DsCursor) (disp : DsDisplay),
      (ds_display_remove_cursor cu disp).isSome = true ↔
        cu.link_used = true) := by
  refine ⟨fun disp c => ?_, fun c disp => ?_, fun disp w => ?_,
    fun w disp => ?_, fun disp s => ?_, fun s disp => ?_,
    fun disp dd env => ?_, fun dd disp => ?_, fun disp cu => ?_,
    fun cu disp => ?_⟩
  · by_cases h : c.display = none ∧ c.link_used = false <;>
      simp [ds_display_add_client, h]
  · by_cases h : c.link_used <;> simp [ds_display_remove_client, h]
  · by_cases h : w.display = none ∧ w.link_used = false <;>
      simp [ds_display_add_wmclient, h]
  · by_cases h : w.link_used <;> simp [ds_display_remove_wmclient, h]
  · by_cases h : s.display = none ∧ s.link_used = false <;>
      simp [ds_display_add_seat, h]
  · by_cases h : s.link_used <;> simp [ds_display_remove_seat, h]
  · by_cases h : dd.display = none ∧ dd.link_used = false <;>
      simp [ds_display_add_ddev, h]
  · by_cases h : dd.link_used <;> simp [ds_display_remove_ddev, h]
  · by_cases h : cu.display = none ∧ cu.link_used = false <;>
      simp [ds_display_add_cursor, h]
  · by_cases h : cu.link_used <;> simp [ds_display_remove_cursor, h]

/-- One graphics-capability call performed during `ds_display_paint`:
the background fill pair, a window paint, a window preview paint, a seat
pointer paint, or the backbuffer render of the flush step. -/
inductive PaintStep where
  | setColor
  | fillRect (r : GfxRect)
  | wndPaint (i : Nat)
  | wndPreview (i : Nat)
  | seatPointer (i : Nat)
  | render
deriving DecidableEq, Repr

/-- Results of the external calls made during painting: `gfx_set_color`,
`gfx_fill_rect`, `ds_window_paint`, `ds_window_paint_preview`,
`ds_seat_paint_pointer` (per window/seat id) and `gfx_bitmap_render`. -/
structure PaintEnv where
  set_color : Errno
  fill_rect : Errno
  wnd_paint : Nat → Errno
  wnd_preview : Nat → Errno
  seat_pointer : Nat → Errno
  bitmap_render : Errno

/-- The result an oracle assigns to one paint step. -/
def stepResult (env : PaintEnv) : PaintStep → Errno
  | .setColor => env.set_color
  | .fillRect _ => env.fill_rect
  | .wndPaint i => env.wnd_paint i
  | .wndPreview i => env.wnd_preview i
  | .seatPointer i => env.seat_pointer i
  | .render => env.bitmap_render

/-- `ds_display_paint_bg`: clip the requested rectangle against the
display rectangle (or take the whole display), get the display GC —
returning EOK when the returned pointer is NULL — then set the
background color and fill the clipped rectangle, propagating the first
error.  A fault inside `ds_display_get_gc` (outer `none`) propagates as
`none`; otherwise the log records the graphics calls performed. -/
def ds_display_paint_bg (disp : DsDisplay) (rect : Option GfxRect)
    (env : PaintEnv) : Option (Errno × List PaintStep) :=
  let crect := match rect with
    | some r => gfx_rect_clip disp.rect r
    | none => disp.rect
  match ds_display_get_gc disp with
  | none => none
  | some none => some (Errno.EOK, [])
  | some (some _) =>
      if env.set_color ≠ Errno.EOK then
        some (env.set_color, [PaintStep.setColor])
      else
        some (env.fill_rect,
          [PaintStep.setColor, PaintStep.fillRect crect])

/-- Run a list of paint steps in order, stopping at (and including) the
first failing one; returns the first error (or EOK) and the log of the
steps performed. -/
def paintSteps (res : PaintStep → Errno) : List PaintStep →
    Errno × List PaintStep
  | [] => (Errno.EOK, [])
  | s :: rest =>
      if res s ≠ Errno.EOK then (res s, [s])
      else
        let r := paintSteps res rest
        (r.1, s :: r.2)

/-- `ds_display_update`: nothing to do without a backbuffer; otherwise
render the backbuffer's dirty region (`gfx_bitmap_render`), propagating
an error without touching the dirty rectangle, and on success reset the
dirty rectangle to all-zero. -/
def ds_display_update (disp : DsDisplay) (env : PaintEnv) :
    Errno × DsDisplay × List PaintStep :=
  match disp.backbuf with
  | none => (Errno.EOK, disp, [])
  | some _ =>
      if env.bitmap_render ≠ Errno.EOK then
        (env.bitmap_render, disp, [PaintStep.render])
      else
        (Errno.EOK, { disp with dirty_rect := gfx_rect_zero },
          [PaintStep.render])

/-- `ds_display_paint`: paint the background, then every window bottom to
top (the window list iterated from its tail), then every window preview
in the same order, then every seat's pointer in attachment order, then
flush via `ds_display_update`; each step propagates the first error and
aborts the remainder.  A fault in the background step propagates as
`none`. -/
def ds_display_paint (disp : DsDisplay) (rect : Option GfxRect)
    (env : PaintEnv) : Option (Errno × DsDisplay × List PaintStep) :=
  match ds_display_paint_bg disp rect env with
  | none => none
  | some bg =>
  if bg.1 ≠ Errno.EOK then some (bg.1, disp, bg.2)
  else
    let wnds := paintSteps (stepResult env)
      (disp.windows.reverse.map (fun w => PaintStep.wndPaint w.id))
    if wnds.1 ≠ Errno.EOK then some (wnds.1, disp, bg.2 ++ wnds.2)
    else
      let prevs := paintSteps (stepResult env)
        (disp.windows.reverse.map (fun w => PaintStep.wndPreview w.id))
      if prevs.1 ≠ Errno.EOK then
        some (prevs.1, disp, bg.2 ++ wnds.2 ++ prevs.2)
      else
        let ptrs := paintSteps (stepResult env)
          (disp.seats.map (fun s => PaintStep.seatPointer s.id))
        if ptrs.1 ≠ Errno.EOK then
          some (ptrs.1, disp, bg.2 ++ wnds.2 ++ prevs.2 ++ ptrs.2)
        else
          let upd := ds_display_update disp env
          some (upd.1, upd.2.1,
            bg.2 ++ wnds.2 ++ prevs.2 ++ ptrs.2 ++ upd.2.2)

/-- `ds_display_invalidate_cb`: grow the dirty rectangle to the envelope
of itself and the newly drawn rectangle. -/
def ds_display_invalidate_cb (disp : DsDisplay) (rect : GfxRect) :
    DsDisplay :=
  { disp with dirty_rect := gfx_rect_envelope disp.dirty_rect rect }

/-- The minimal bounding envelope of the rectangles `r :: rs`, following
the spec's words: componentwise minimum of the lower corners and maximum
of the upper corners. -/
def boundingEnvelope (r : GfxRect) (rs : List GfxRect) : GfxRect :=
  ⟨⟨rs.foldl (fun a q => min a q.p0.x) r.p0.x,
    rs.foldl (fun a q => min a q.p0.y) r.p0.y⟩,
   ⟨rs.foldl (fun a q => max a q.p1.x) r.p1.x,
    rs.foldl (fun a q => max a q.p1.y) r.p1.y⟩⟩

theorem rectProper_not_empty {r : GfxRect} (h : rectProper r = true) :
    gfx_rect_is_empty r = false := by
  simp only [rectProper, Bool.and_eq_true, decide_eq_true_eq] at h
  simp only [gfx_rect_is_empty]
  simp only [Bool.or_eq_false_iff, decide_eq_false_iff_not]
  omega

theorem envelope_proper {a b : GfxRect} (ha : rectProper a = true)
    (hb : rectProper b = true) :
    gfx_rect_envelope a b =
      ⟨⟨min a.p0.x b.p0.x, min a.p0.y b.p0.y⟩,
       ⟨max a.p1.x b.p1.x, max a.p1.y b.p1.y⟩⟩
    ∧ rectProper (gfx_rect_envelope a b) = true := by
  have hea := rectProper_not_empty ha
  have heb := rectProper_not_empty hb
  have henv : gfx_rect_envelope a b =
      ⟨⟨min a.p0.x b.p0.x, min a.p0.y b.p0.y⟩,
       ⟨max a.p1.x b.p1.x, max a.p1.y b.p1.y⟩⟩ := by
    unfold gfx_rect_envelope
    rw [if_neg (by simp [hea]), if_neg (by simp [heb])]
  refine ⟨henv, ?_⟩
  rw [henv]
  simp only [rectProper, Bool.and_eq_true, decide_eq_true_eq] at ha hb ⊢
  omega

theorem envelope_foldl_proper {rs : List GfxRect} {a : GfxRect}
    (ha : rectProper a = true) (hrs : ∀ q ∈ rs, rectProper q = true) :
    rs.foldl gfx_rect_envelope a = boundingEnvelope a rs := by
  induction rs generalizing a with
  | nil => rfl
  | cons q qs ih =>
      have hq : rectProper q = true := hrs q (by simp)
      obtain ⟨henv, hprop⟩ := envelope_proper ha hq
      rw [List.foldl_cons, ih hprop (fun u hu => hrs u (by simp [hu])), henv]
      rfl

theorem foldl_invalidate_dirty (rs : List GfxRect) (d : DsDisplay) :
    (rs.foldl ds_display_invalidate_cb d).dirty_rect =
      rs.foldl gfx_rect_envelope d.dirty_rect := by
  induction rs generalizing d with
  | nil => rfl
  | cons q qs ih =>
      rw [List.foldl_cons, ih]
      rfl

/-- C3: starting from the all-zero (empty) dirty rectangle established
when the backbuffer is allocated, after invalidate callbacks with proper
rectangles r1..rN the dirty rectangle is the minimal bounding envelope
of r1..rN; and a successful `ds_display_update` with a backbuffer
present resets the dirty rectangle to the empty rectangle with
p0 = p1 = (0,0). -/
theorem dirty_rect_is_envelope (d : DsDisplay) (r : GfxRect)
    (rs : List GfxRect) (hd : d.dirty_rect = gfx_rect_zero)
    (hp : ∀ q ∈ r :: rs, rectProper q = true) :
    ((r :: rs).foldl ds_display_invalidate_cb d).dirty_rect =
      boundingEnvelope r rs
    ∧ (∀ (d2 : DsDisplay) (env : PaintEnv), d2.backbuf.isSome = true →
        env.bitmap_render = Errno.EOK →
        (ds_display_update d2 env).1 = Errno.EOK
        ∧ (ds_display_update d2 env).2.1.dirty_rect = gfx_rect_zero) := by
  constructor
  · rw [foldl_invalidate_dirty, List.foldl_cons]
    have h0 : gfx_rect_envelope d.dirty_rect r = r := by
      rw [hd]
      unfold gfx_rect_envelope
      rw [if_pos (by decide)]
    rw [h0]
    exact envelope_foldl_proper (hp r (by simp))
      (fun q hq => hp q (by simp [hq]))
  · intro d2 env hbb hr
    unfold ds_display_update
    match hb : d2.backbuf with
    | none => rw [hb] at hbb; simp at hbb
    | some bm => simp [hr]

/-- Witness for C3: two invalidates on a fresh double-buffered display,
and a successful flush. -/
theorem dirty_rect_is_envelope_witness :
    ((([⟨⟨0, 0⟩, ⟨2, 2⟩⟩, ⟨⟨1, 1⟩, ⟨5, 3⟩⟩] : List GfxRect).foldl
        ds_display_invalidate_cb
        (ds_display_create ⟨true⟩ 0)).dirty_rect =
      boundingEnvelope ⟨⟨0, 0⟩, ⟨2, 2⟩⟩ [⟨⟨1, 1⟩, ⟨5, 3⟩⟩])
    ∧ (∀ (d2 : DsDisplay) (env : PaintEnv), d2.backbuf.isSome = true →
        env.bitmap_render = Errno.EOK →
        (ds_display_update d2 env).1 = Errno.EOK
        ∧ (ds_display_update d2 env).2.1.dirty_rect = gfx_rect_zero) :=
  dirty_rect_is_envelope (ds_display_create ⟨true⟩ 0) ⟨⟨0, 0⟩, ⟨2, 2⟩⟩
    [⟨⟨1, 1⟩, ⟨5, 3⟩⟩] rfl (by decide)

/-- C10, amended: on a display that is not double-buffered and has no
fan-out context (no display device has been attached, `fbgc` is NULL),
`ds_display_paint_bg` returns EOK without performing any drawing call,
for every rectangle argument including NULL.  (As stated the claim also
covered double-buffered displays with `fbgc` NULL; there the code
instead faults — see the counterexample.) -/
theorem paint_bg_no_gc (disp : DsDisplay) (rect : Option GfxRect)
    (env : PaintEnv) (hfb : disp.fbgc = none)
    (hdb : disp.flags.double_buf = false) :
    ds_display_paint_bg disp rect env = some (Errno.EOK, []) := by
  have hgc : ds_display_get_gc disp = some none := by
    unfold ds_display_get_gc ds_display_get_unbuf_gc
    simp [hfb, hdb]
  unfold ds_display_paint_bg
  rw [hgc]

/-- Counterexample to C10 as stated: a display created with the
double-buffered flag and no device attached has `fbgc = NULL`, yet
`ds_display_paint_bg` does not return EOK — `ds_display_get_gc`
dereferences the NULL `bbgc` inside `mem_gc_get_ctx` and the call
faults (the `none` outcome) before any NULL check can run. -/
theorem paint_bg_double_buf_faults :
    (ds_display_create ⟨true⟩ 9).fbgc = none
    ∧ (ds_display_create ⟨true⟩ 9).bbgc = none
    ∧ ds_display_paint_bg (ds_display_create ⟨true⟩ 9) none
        ⟨Errno.EOK, Errno.EOK, fun _ => Errno.EOK, fun _ => Errno.EOK,
          fun _ => Errno.EOK, Errno.EOK⟩ = none :=
  ⟨rfl, rfl, rfl⟩

/-- Witness for C10: a freshly created unbuffered display, with both a
NULL and a concrete rectangle argument. -/
theorem paint_bg_no_gc_witness :
    ds_display_paint_bg (ds_display_create ⟨false⟩ 3) none
        ⟨Errno.EIO, Errno.EIO, fun _ => Errno.EIO, fun _ => Errno.EIO,
          fun _ => Errno.EIO, Errno.EIO⟩ = some (Errno.EOK, [])
    ∧ ds_display_paint_bg (ds_display_create ⟨false⟩ 3)
        (some ⟨⟨0, 0⟩, ⟨10, 10⟩⟩)
        ⟨Errno.EIO, Errno.EIO, fun _ => Errno.EIO, fun _ => Errno.EIO,
          fun _ => Errno.EIO, Errno.EIO⟩ = some (Errno.EOK, []) :=
  ⟨paint_bg_no_gc (ds_display_create ⟨false⟩ 3) none _ rfl rfl,
   paint_bg_no_gc (ds_display_create ⟨false⟩ 3) (some ⟨⟨0, 0⟩, ⟨10, 10⟩⟩)
     _ rfl rfl⟩

/-- Every call in the log succeeded. -/
def goodLog (res : PaintStep → Errno) (log : List PaintStep) : Prop :=
  ∀ s ∈ log, res s = Errno.EOK

/-- The log consists of successful calls followed by exactly one failing
call whose error is `rc`: the error was propagated immediately and the
remaining steps were skipped. -/
def failLog (res : PaintStep → Errno) (rc : Errno)
    (log : List PaintStep) : Prop :=
  ∃ g b, log = g ++ [b] ∧ goodLog res g ∧ res b = rc

theorem goodLog_append {res : PaintStep → Errno} {l1 l2 : List PaintStep}
    (h1 : goodLog res l1) (h2 : goodLog res l2) : goodLog res (l1 ++ l2) := by
  intro s hs
  rcases List.mem_append.mp hs with h | h
  · exact h1 s h
  · exact h2 s h

theorem failLog_append {res : PaintStep → Errno} {rc : Errno}
    {l1 l2 : List PaintStep} (h1 : goodLog res l1) (h2 : failLog res rc l2) :
    failLog res rc (l1 ++ l2) := by
  obtain ⟨g, b, heq, hg, hb⟩ := h2
  exact ⟨l1 ++ g, b, by rw [heq, List.append_assoc], goodLog_append h1 hg, hb⟩

theorem paintSteps_spec (res : PaintStep → Errno) (steps : List PaintStep) :
    ((paintSteps res steps).1 = Errno.EOK →
      goodLog res (paintSteps res steps).2)
    ∧ ((paintSteps res steps).1 ≠ Errno.EOK →
      failLog res (paintSteps res steps).1 (paintSteps res steps).2) := by
  induction steps with
  | nil =>
      refine ⟨fun _ t ht => absurd ht (by simp [paintSteps]),
        fun h => absurd rfl h⟩
  | cons s rest ih =>
      by_cases hs : res s = Errno.EOK
      · have hred : paintSteps res (s :: rest) =
            ((paintSteps res rest).1, s :: (paintSteps res rest).2) := by
          simp [paintSteps, hs]
        rw [hred]
        constructor
        · intro h t ht
          rcases List.mem_cons.mp ht with h1 | h1
          · rw [h1]; exact hs
          · exact ih.1 h t h1
        · intro h
          obtain ⟨g, b, heq, hg, hb⟩ := ih.2 h
          refine ⟨s :: g, b, by simp [heq], ?_, hb⟩
          intro t ht
          rcases List.mem_cons.mp ht with h1 | h1
          · rw [h1]; exact hs
          · exact hg t h1
      · have hred : paintSteps res (s :: rest) = (res s, [s]) := by
          simp [paintSteps, hs]
        rw [hred]
        constructor
        · intro h; exact absurd h hs
        · intro h
          exact ⟨[], s, rfl, fun t ht => absurd ht (by simp), rfl⟩

theorem paint_bg_spec (disp : DsDisplay) (rect : Option GfxRect)
    (env : PaintEnv) (bg : Errno × List PaintStep)
    (hbg : ds_display_paint_bg disp rect env = some bg) :
    (bg.1 = Errno.EOK → goodLog (stepResult env) bg.2)
    ∧ (bg.1 ≠ Errno.EOK → failLog (stepResult env) bg.1 bg.2) := by
  simp only [ds_display_paint_bg] at hbg
  cases hgc : ds_display_get_gc disp with
  | none =>
      simp only [hgc] at hbg
      exact Option.noConfusion hbg
  | some og =>
      cases og with
      | none =>
          simp only [hgc] at hbg
          injection hbg with h
          subst h
          refine ⟨fun _ t ht => absurd ht (by simp),
            fun h2 => absurd rfl h2⟩
      | some gc =>
          simp only [hgc] at hbg
          by_cases hsc : env.set_color = Errno.EOK
          · rw [if_neg (by simp [hsc])] at hbg
            injection hbg with h
            subst h
            constructor
            · intro h2 t ht
              rcases List.mem_cons.mp ht with h1 | h1
              · rw [h1]; exact hsc
              · rw [List.mem_singleton.mp h1]; exact h2
            · intro h2
              refine ⟨[PaintStep.setColor], _, rfl, ?_, rfl⟩
              intro t ht
              rw [List.mem_singleton.mp ht]
              exact hsc
          · rw [if_pos (by simp [hsc])] at hbg
            injection hbg with h
            subst h
            constructor
            · intro h2; exact absurd h2 hsc
            · intro h2
              exact ⟨[], PaintStep.setColor, rfl,
                fun t ht => absurd ht (by simp), rfl⟩

theorem update_spec (disp : DsDisplay) (env : PaintEnv) :
    ((ds_display_update disp env).1 = Errno.EOK →
      goodLog (stepResult env) (ds_display_update disp env).2.2)
    ∧ ((ds_display_update disp env).1 ≠ Errno.EOK →
      (ds_display_update disp env).2.1 = disp
      ∧ failLog (stepResult env) (ds_display_update disp env).1
          (ds_display_update disp env).2.2) := by
  unfold ds_display_update
  cases hb : disp.backbuf with
  | none =>
      refine ⟨fun _ t ht => absurd ht (by simp), fun h => absurd rfl h⟩
  | some bm =>
      by_cases hr : env.bitmap_render = Errno.EOK
      · rw [if_neg (by simp [hr])]
        constructor
        · intro _ t ht
          rw [List.mem_singleton.mp ht]
          exact hr
        · intro h; exact absurd rfl h
      · rw [if_pos (by simp [hr])]
        constructor
        · intro h; exact absurd h hr
        · intro _
          exact ⟨rfl, [], PaintStep.render, rfl,
            fun t ht => absurd ht (by simp), rfl⟩

/-- C5: when any graphics-capability call fails during `ds_display_paint`
(including the flush step, `gfx_bitmap_render` inside
`ds_display_update`), the error is propagated immediately: the returned
display state — in particular the accumulated dirty rectangle — is
unchanged, and the log of performed calls is a run of successful calls
ending at the failing call, so the remaining paint steps are skipped;
moreover a failing render in `ds_display_update` leaves the dirty
rectangle unchanged rather than resetting it. -/
theorem paint_error_propagation (disp : DsDisplay) (rect : Option GfxRect)
    (env : PaintEnv) (pr : Errno × DsDisplay × List PaintStep)
    (hp : ds_display_paint disp rect env = some pr)
    (he : pr.1 ≠ Errno.EOK) :
    pr.2.1 = disp
    ∧ pr.2.1.dirty_rect = disp.dirty_rect
    ∧ failLog (stepResult env) pr.1 pr.2.2
    ∧ (∀ (d2 : DsDisplay) (env2 : PaintEnv),
        env2.bitmap_render ≠ Errno.EOK →
        (ds_display_update d2 env2).2.1.dirty_rect = d2.dirty_rect) := by
  have hupd : ∀ (d2 : DsDisplay) (env2 : PaintEnv),
      env2.bitmap_render ≠ Errno.EOK →
      (ds_display_update d2 env2).2.1.dirty_rect = d2.dirty_rect := by
    intro d2 env2 hr
    unfold ds_display_update
    cases hb : d2.backbuf with
    | none => rfl
    | some bm => rw [if_pos (by simp [hr])]
  simp only [ds_display_paint] at hp
  cases hbg : ds_display_paint_bg disp rect env with
  | none =>
      simp only [hbg] at hp
      exact Option.noConfusion hp
  | some bg =>
  simp only [hbg] at hp
  have hspec := paint_bg_spec disp rect env bg hbg
  by_cases h1 : bg.1 = Errno.EOK
  case neg =>
    rw [if_pos h1] at hp
    injection hp with h
    subst h
    exact ⟨rfl, rfl, hspec.2 h1, hupd⟩
  rw [if_neg (not_not_intro h1)] at hp
  have gbg := hspec.1 h1
  by_cases h2 : (paintSteps (stepResult env)
      (disp.windows.reverse.map (fun w => PaintStep.wndPaint w.id))).1 =
      Errno.EOK
  case neg =>
    rw [if_pos h2] at hp
    injection hp with h
    subst h
    exact ⟨rfl, rfl,
      failLog_append gbg ((paintSteps_spec (stepResult env) _).2 h2), hupd⟩
  rw [if_neg (not_not_intro h2)] at hp
  have gwnds := (paintSteps_spec (stepResult env) _).1 h2
  by_cases h3 : (paintSteps (stepResult env)
      (disp.windows.reverse.map (fun w => PaintStep.wndPreview w.id))).1 =
      Errno.EOK
  case neg =>
    rw [if_pos h3] at hp
    injection hp with h
    subst h
    exact ⟨rfl, rfl,
      failLog_append (goodLog_append gbg gwnds)
        ((paintSteps_spec (stepResult env) _).2 h3), hupd⟩
  rw [if_neg (not_not_intro h3)] at hp
  have gprevs := (paintSteps_spec (stepResult env) _).1 h3
  by_cases h4 : (paintSteps (stepResult env)
      (disp.seats.map (fun s => PaintStep.seatPointer s.id))).1 =
      Errno.EOK
  case neg =>
    rw [if_pos h4] at hp
    injection hp with h
    subst h
    exact ⟨rfl, rfl,
      failLog_append (goodLog_append (goodLog_append gbg gwnds) gprevs)
        ((paintSteps_spec (stepResult env) _).2 h4), hupd⟩
  rw [if_neg (not_not_intro h4)] at hp
  have gptrs := (paintSteps_spec (stepResult env) _).1 h4
  injection hp with h
  subst h
  have he2 : (ds_display_update disp env).1 ≠ Errno.EOK := he
  have hu := (update_spec disp env).2 he2
  refine ⟨hu.1, ?_, ?_, hupd⟩
  · exact congrArg DsDisplay.dirty_rect hu.1
  · exact failLog_append
      (goodLog_append (goodLog_append (goodLog_append gbg gwnds) gprevs)
        gptrs) hu.2

/-- Display used by the C5 witness: freshly created, with a fan-out GC
attached so that painting actually draws. -/
def dispPW : DsDisplay :=
  { ds_display_create ⟨false⟩ 1 with fbgc := some ⟨9⟩ }

/-- Oracle used by the C5 witness: `gfx_set_color` fails with EIO. -/
def envPW : PaintEnv :=
  ⟨Errno.EIO, Errno.EOK, fun _ => Errno.EOK, fun _ => Errno.EOK,
    fun _ => Errno.EOK, Errno.EOK⟩

/-- The result of that failing paint: EIO after the single set-color
call, display unchanged. -/
def prPW : Errno × DsDisplay × List PaintStep :=
  (Errno.EIO, dispPW, [PaintStep.setColor])

/-- Witness for C5: a paint whose very first graphics call fails. -/
theorem paint_error_propagation_witness :
    prPW.2.1 = dispPW
    ∧ prPW.2.1.dirty_rect = dispPW.dirty_rect
    ∧ failLog (stepResult envPW) prPW.1 prPW.2.2
    ∧ (∀ (d2 : DsDisplay) (env2 : PaintEnv),
        env2.bitmap_render ≠ Errno.EOK →
        (ds_display_update d2 env2).2.1.dirty_rect = d2.dirty_rect) :=
  paint_error_propagation dispPW none envPW prPW (by decide) (by decide)

/-- Fold a sequence of `ds_display_add_ddev` calls; a call rejected by
the asserts aborts the process in C and is modelled as a skipped step. -/
def addDdevSeq (disp : DsDisplay) : List (DsDdev × DdevEnv) → DsDisplay
  | [] => disp
  | step :: rest =>
      match ds_display_add_ddev disp step.1 step.2 with
      | none => addDdevSeq disp rest
      | some r => addDdevSeq r.2.1 rest

/-- A well-formed external call result: C collaborators return EOK
exactly on success, so a failure carries a non-EOK code. -/
def callWF {α : Type} : CallResult α → Bool
  | .ok _ => true
  | .error rc => decide (rc ≠ Errno.EOK)

theorem alloc_backbuf_not_double {disp : DsDisplay} {env : DdevEnv}
    (hf : disp.flags.double_buf = false) :
    ds_display_alloc_backbuf disp env = (Errno.EOK, disp) := by
  unfold ds_display_alloc_backbuf
  rw [if_pos hf]

theorem add_ddev_body_not_double (disp : DsDisplay) (dd : DsDdev)
    (env : DdevEnv) (hf : disp.flags.double_buf = false)
    (hb : disp.backbuf = none) (hg : disp.bbgc = none) :
    (ds_display_add_ddev_body disp dd env).2.1.flags.double_buf = false
    ∧ (ds_display_add_ddev_body disp dd env).2.1.backbuf = none
    ∧ (ds_display_add_ddev_body disp dd env).2.1.bbgc = none := by
  by_cases hemp : gfx_rect_is_empty disp.rect
  · cases hcc : env.clonegc_create with
    | error rc =>
        simp [ds_display_add_ddev_body, hemp, hcc, hf, hb, hg]
    | ok fb =>
        simp [ds_display_add_ddev_body, hemp, hcc, hf, hb, hg,
          alloc_backbuf_not_double]
  · by_cases hout : env.clonegc_add_output = Errno.EOK <;>
      simp [ds_display_add_ddev_body, hemp, hout, hf, hb, hg]

theorem addDdevSeq_not_double (steps : List (DsDdev × DdevEnv))
    {disp : DsDisplay} (hf : disp.flags.double_buf = false)
    (hb : disp.backbuf = none) (hg : disp.bbgc = none) :
    (addDdevSeq disp steps).backbuf = none
    ∧ (addDdevSeq disp steps).bbgc = none := by
  induction steps generalizing disp with
  | nil => exact ⟨hb, hg⟩
  | cons step rest ih =>
      simp only [addDdevSeq]
      cases hadd : ds_display_add_ddev disp step.1 step.2 with
      | none => exact ih hf hb hg
      | some r =>
          have hr : r = ds_display_add_ddev_body disp step.1 step.2 := by
            unfold ds_display_add_ddev at hadd
            by_cases hgd : step.1.display = none ∧ step.1.link_used = false
            · rw [if_pos hgd] at hadd
              exact (Option.some.inj hadd).symm
            · rw [if_neg hgd] at hadd
              cases hadd
          obtain ⟨f1, b1, g1⟩ :=
            add_ddev_body_not_double disp step.1 step.2 hf hb hg
          rw [hr]
          exact ih f1 b1 g1

theorem add_ddev_body_first_double (disp : DsDisplay) (dd : DsDdev)
    (env : DdevEnv) (hf : disp.flags.double_buf = true)
    (hemp : gfx_rect_is_empty disp.rect = true)
    (hwb : callWF env.bitmap_create = true)
    (hwm : callWF env.mem_gc_create = true)
    (hrc : (ds_display_add_ddev_body disp dd env).1 = Errno.EOK) :
    (ds_display_add_ddev_body disp dd env).2.1.backbuf.isSome = true
    ∧ (ds_display_add_ddev_body disp dd env).2.1.bbgc.isSome = true := by
  cases hcc : env.clonegc_create with
  | error rc =>
      simp [ds_display_add_ddev_body, hemp, hcc] at hrc
  | ok fb =>
      cases hbc : env.bitmap_create with
      | error rc =>
          have hne : rc ≠ Errno.EOK := by simpa [callWF, hbc] using hwb
          cases rc
          case EOK => exact absurd rfl hne
          all_goals
            simp [ds_display_add_ddev_body, hemp, hcc,
              ds_display_alloc_backbuf, hf, hbc] at hrc
      | ok bm =>
          cases hga : env.bitmap_get_alloc
          case EOK =>
            cases hmc : env.mem_gc_create with
            | error rc =>
                have hne : rc ≠ Errno.EOK := by
                  simpa [callWF, hmc] using hwm
                cases rc
                case EOK => exact absurd rfl hne
                all_goals
                  simp [ds_display_add_ddev_body, hemp, hcc,
                    ds_display_alloc_backbuf, hf, hbc, hga, hmc] at hrc
            | ok m =>
                simp [ds_display_add_ddev_body, hemp, hcc,
                  ds_display_alloc_backbuf, hf, hbc, hga, hmc]
          all_goals
            simp [ds_display_add_ddev_body, hemp, hcc,
              ds_display_alloc_backbuf, hf, hbc, hga] at hrc

/-- C4: `ds_display_get_gc` returns the backbuffer's memory context when
the double-buffered flag is set and the fan-out context otherwise; a
display created without the double-buffered flag never allocates a
backbuffer or backbuffer GC, over any sequence of device attaches; and a
display created with the flag set owns a backbuffer and its context as
soon as the first device attach succeeds (for well-formed external call
results). -/
theorem backbuf_iff_double_buffered :
    (∀ disp : DsDisplay, disp.flags.double_buf = true →
      ds_display_get_gc disp =
        disp.bbgc.map (fun m => some (mem_gc_get_ctx m)))
    ∧ (∀ disp : DsDisplay, disp.flags.double_buf = false →
      ds_display_get_gc disp = some (ds_display_get_unbuf_gc disp))
    ∧ (∀ (did : Nat) (steps : List (DsDdev × DdevEnv)),
      (addDdevSeq (ds_display_create ⟨false⟩ did) steps).backbuf = none
      ∧ (addDdevSeq (ds_display_create ⟨false⟩ did) steps).bbgc = none)
    ∧ (∀ (did : Nat) (dd : DsDdev) (env : DdevEnv)
        (r : Errno × DsDisplay × DsDdev),
      callWF env.bitmap_create = true → callWF env.mem_gc_create = true →
      ds_display_add_ddev (ds_display_create ⟨true⟩ did) dd env = some r →
      r.1 = Errno.EOK →
      r.2.1.backbuf.isSome = true ∧ r.2.1.bbgc.isSome = true) := by
  refine ⟨fun disp h => ?_, fun disp h => ?_, fun did steps => ?_,
    fun did dd env r hwb hwm hadd hrc => ?_⟩
  · simp [ds_display_get_gc, h]
  · simp [ds_display_get_gc, h]
  · exact addDdevSeq_not_double steps rfl rfl rfl
  · have hr : r = ds_display_add_ddev_body (ds_display_create ⟨true⟩ did)
        dd env := by
      unfold ds_display_add_ddev at hadd
      by_cases hgd : dd.display = none ∧ dd.link_used = false
      · rw [if_pos hgd] at hadd
        exact (Option.some.inj hadd).symm
      · rw [if_neg hgd] at hadd
        cases hadd
    rw [hr] at hrc ⊢
    exact add_ddev_body_first_double _ dd env rfl rfl hwb hwm hrc

/-- Device used in concrete attach scenarios: reports (0,0)-(800,600). -/
def ddevW : DsDdev := ⟨5, none, false, ⟨⟨0, 0⟩, ⟨800, 600⟩⟩⟩

/-- Oracle where every external attach-time call succeeds. -/
def envOK : DdevEnv := ⟨.ok ⟨1⟩, .ok ⟨2⟩, Errno.EOK, .ok ⟨3⟩, Errno.EOK⟩

/-- The display state after successfully attaching `ddevW` to a fresh
double-buffered display. -/
def dispAttached : DsDisplay :=
  { id := 0, rect := ⟨⟨0, 0⟩, ⟨800, 600⟩⟩, flags := ⟨true⟩,
    backbuf := some ⟨2⟩, bbgc := some ⟨3⟩, fbgc := some ⟨1⟩,
    dirty_rect := gfx_rect_zero, next_wnd_id := 1, clients := [],
    wmclients := [], seats := [],
    ddevs := [⟨5, some 0, true, ⟨⟨0, 0⟩, ⟨800, 600⟩⟩⟩], cursors := [],
    windows := [] }

/-- Witness for C4: the dispatch equation on a double-buffered display,
the no-backbuffer run on an unbuffered display, and a successful
double-buffered first attach. -/
theorem backbuf_iff_double_buffered_witness :
    (ds_display_get_gc (ds_display_create ⟨true⟩ 7) =
      (ds_display_create ⟨true⟩ 7).bbgc.map
        (fun m => some (mem_gc_get_ctx m)))
    ∧ (addDdevSeq (ds_display_create ⟨false⟩ 0) [(ddevW, envOK)]).backbuf =
        none
    ∧ (addDdevSeq (ds_display_create ⟨false⟩ 0) [(ddevW, envOK)]).bbgc =
        none
    ∧ ((Errno.EOK, dispAttached,
          (⟨5, some 0, true, ⟨⟨0, 0⟩, ⟨800, 600⟩⟩⟩ : DsDdev)) :
        Errno × DsDisplay × DsDdev).2.1.backbuf.isSome = true
    ∧ ((Errno.EOK, dispAttached,
          (⟨5, some 0, true, ⟨⟨0, 0⟩, ⟨800, 600⟩⟩⟩ : DsDdev)) :
        Errno × DsDisplay × DsDdev).2.1.bbgc.isSome = true := by
  refine ⟨backbuf_iff_double_buffered.1 (ds_display_create ⟨true⟩ 7) rfl,
    (backbuf_iff_double_buffered.2.2.1 0 [(ddevW, envOK)]).1,
    (backbuf_iff_double_buffered.2.2.1 0 [(ddevW, envOK)]).2,
    ?_⟩
  have h := backbuf_iff_double_buffered.2.2.2 0 ddevW envOK
    (Errno.EOK, dispAttached, ⟨5, some 0, true, ⟨⟨0, 0⟩, ⟨800, 600⟩⟩⟩)
    (by decide) (by decide) (by decide) (by decide)
  exact h

/-- Oracle where `ds_clonegc_create` fails with ENOMEM. -/
def envCloneFail : DdevEnv :=
  ⟨.error Errno.ENOMEM, .ok ⟨2⟩, Errno.EOK, .ok ⟨3⟩, Errno.EOK⟩

/-- C6, evaluated at the failing input: when `ds_clonegc_create` fails
while the first display device is being attached, `ds_display_add_ddev`
returns ENOMEM but leaves the device appended to the display's device
list with its display back-reference still set, and leaves the desktop
rectangle set to the device's geometry instead of restoring it — the
device is not fully detached and the display state is changed,
contrary to the claim (the source's `XXX Remove output` comment marks
the missing cleanup). -/
theorem add_ddev_error_partial_state :
    ((ds_display_add_ddev (ds_display_create ⟨false⟩ 7) ddevW
        envCloneFail).map
      (fun r => (r.1, r.2.2.display, r.2.1.ddevs.map DsDdev.id,
        r.2.1.rect))) =
      some (Errno.ENOMEM, some 7, [5], ⟨⟨0, 0⟩, ⟨800, 600⟩⟩)
    ∧ ((⟨⟨0, 0⟩, ⟨800, 600⟩⟩ : GfxRect) ≠
        (ds_display_create ⟨false⟩ 7).rect) := by
  decide

end DisplaySrv
